import Mathlib

/-!
Shallow embedding of the kimchi management core (src/kimchi/model.py) and
proofs about its specification claims.  The Python code is translated into
executable Lean definitions: numbers that the code handles as Python floats
are modelled as rationals, Python exceptions are modelled by the `PyErr`
error type together with `Except`, and the mutable world (the libvirt
control plane, the object store, the task registry and the sampler state)
is threaded explicitly, so that the state that exists at the moment an
exception escapes is observable.
-/

deriving instance DecidableEq for Except

namespace Kimchi

/-- Exceptions the translated code can raise: the kimchi error taxonomy from
kimchi.exception, libvirt errors carrying a (domain, code, message) triple,
and the interpreter-level errors the Python code can hit (KeyError,
ZeroDivisionError, UnboundLocalError). -/
inductive PyErr where
  | invalidParameter (msg : String)
  | missingParameter (msg : String)
  | invalidOperation (msg : String)
  | notFound (msg : String)
  | operationFailed (msg : String)
  | libvirtErr (edom : Nat) (ecode : Nat) (msg : String)
  | keyError (key : String)
  | zeroDivision
  | unboundLocal (var : String)
  deriving DecidableEq, Repr

/-- Name of the Python exception class a `PyErr` value corresponds to. -/
def PyErr.kindName : PyErr → String
  | .invalidParameter _ => "InvalidParameter"
  | .missingParameter _ => "MissingParameter"
  | .invalidOperation _ => "InvalidOperation"
  | .notFound _ => "NotFoundError"
  | .operationFailed _ => "OperationFailed"
  | .libvirtErr _ _ _ => "libvirtError"
  | .keyError _ => "KeyError"
  | .zeroDivision => "ZeroDivisionError"
  | .unboundLocal _ => "UnboundLocalError"

/-- Python `int(x)` applied to a float: truncation toward zero. -/
def pyInt (q : ℚ) : ℤ := if 0 ≤ q then Int.floor q else Int.ceil q

/-- Python 2 `round` to zero decimal places: round half away from zero. -/
def pyRoundHalf (q : ℚ) : ℤ :=
  if 0 ≤ q then Int.floor (q + 1/2) else Int.ceil (q - 1/2)

/-- Python 2 `round(x, 1)`: round half away from zero at one decimal. -/
def pyRound1 (q : ℚ) : ℚ := (pyRoundHalf (q * 10) : ℚ) / 10

/-- Python truthiness of an optional string (`if vm_name:`): `None` and the
empty string are falsy. -/
def truthyStr : Option String → Bool
  | none => false
  | some s => !(s == "")

/-- Lookup in an association list, Python-dict style. -/
def alistGet {α β : Type} [DecidableEq α] : List (α × β) → α → Option β
  | [], _ => none
  | (k, v) :: rest, a => if k = a then some v else alistGet rest a

/-- Insert-or-replace in an association list, Python-dict style (assignment
replaces an existing binding in place, otherwise appends). -/
def alistPut {α β : Type} [DecidableEq α] : List (α × β) → α → β → List (α × β)
  | [], a, b => [(a, b)]
  | (k, v) :: rest, a, b =>
      if k = a then (a, b) :: rest else (k, v) :: alistPut rest a b

/-- Remove the binding of a key from an association list (Python `del`). -/
def alistDrop {α β : Type} [DecidableEq α] : List (α × β) → α → List (α × β)
  | [], _ => []
  | (k, v) :: rest, a => if k = a then rest else (k, v) :: alistDrop rest a

/-! ## LibvirtConnection (model.py lines 1514-1603)

The libvirt numeric error constants are fixed by the external libvirt
library (virterror.h); only their identity matters to the code, which
compares them for membership in the two tuples below. -/

def VIR_FROM_RPC : Nat := 7
def VIR_FROM_REMOTE : Nat := 13
def VIR_ERR_INTERNAL_ERROR : Nat := 1
def VIR_ERR_NO_CONNECT : Nat := 5
def VIR_ERR_INVALID_CONN : Nat := 6
def VIR_ERR_SYSTEM_ERROR : Nat := 38
def VIR_ERR_NO_DOMAIN : Nat := 42
def VIR_ERR_NO_STORAGE_POOL : Nat := 49
def VIR_ERR_NO_STORAGE_VOL : Nat := 50
def VIR_ERR_STORAGE_VOL_EXIST : Nat := 90

/-- A libvirt error as seen by the wrapper: error domain, error code and
message, as returned by get_error_domain / get_error_code /
get_error_message. -/
structure LibvirtError where
  edom : Nat
  ecode : Nat
  msg : String
  deriving DecidableEq, Repr

/-- Outcome of a call made through the wrapped session: success is handled
by `Except.ok`; a failure is either a libvirt error (the only class the
wrapper inspects) or any other Python exception, which the wrapper's
`except libvirt.libvirtError` clause does not catch. -/
inductive CallErr where
  | virt (e : LibvirtError)
  | other (msg : String)
  deriving DecidableEq, Repr

/-- The EDOMAINS tuple of LibvirtConnection.get.wrapMethod. -/
def EDOMAINS : List Nat := [VIR_FROM_REMOTE, VIR_FROM_RPC]

/-- The ECODES tuple of LibvirtConnection.get.wrapMethod. -/
def ECODES : List Nat :=
  [VIR_ERR_SYSTEM_ERROR, VIR_ERR_INTERNAL_ERROR, VIR_ERR_NO_CONNECT,
   VIR_ERR_INVALID_CONN]

/-- The wrapper's connection-class test: `edom in EDOMAINS and ecode in
ECODES`. -/
def connectionClass (e : LibvirtError) : Bool :=
  decide (e.edom ∈ EDOMAINS) && decide (e.ecode ∈ ECODES)

/-- The memoized session slots of a LibvirtConnection: `self._connections`
maps a connection id to a session identifier, or to `none` once the slot has
been invalidated ("disconnected"). -/
abbrev ConnMap := List (Nat × Option Nat)

/-- LibvirtConnection.get.wrapMethod.wrapper: runs one call through the
wrapped session and classifies a failure.  A libvirt error whose domain is
in EDOMAINS and whose code is in ECODES sets the memoized slot for
`connId` to disconnected before the error is re-raised; every other
outcome leaves the slots untouched. -/
def wrapMethod {α : Type} (connId : Nat) (conns : ConnMap)
    (outcome : Except CallErr α) : Except CallErr α × ConnMap :=
  match outcome with
  | .ok v => (.ok v, conns)
  | .error (.other m) => (.error (.other m), conns)
  | .error (.virt e) =>
      if connectionClass e then
        (.error (.virt e), alistPut conns connId none)
      else
        (.error (.virt e), conns)

/-! ## URI parsing and VM name generation (model.py lines 85-105) -/

/-- `_uri_to_name`: match `/<collection>/(.*?)/?$` against the uri; the
non-greedy group captures everything after the collection prefix minus at
most one trailing slash.  A non-matching uri raises InvalidParameter. -/
def uri_to_name (collection : String) (uri : String) : Except PyErr String :=
  let pre := "/" ++ collection ++ "/"
  if pre.data.isPrefixOf uri.data then
    let rest := uri.data.drop pre.data.length
    .ok (String.mk (if rest.getLast? = some '/' then rest.dropLast else rest))
  else
    .error (.invalidParameter uri)

/-- `template_name_from_uri`. -/
def template_name_from_uri (uri : String) : Except PyErr String :=
  uri_to_name "templates" uri

/-- `pool_name_from_uri`. -/
def pool_name_from_uri (uri : String) : Except PyErr String :=
  uri_to_name "storagepools" uri

/-- The name tried at index i by get_vm_name: `"%s-vm-%i" % (t_name, i)`. -/
def candidateVmName (t_name : String) (i : Nat) : String :=
  t_name ++ "-vm-" ++ toString i

/-- The `for i in xrange(1, 1000)` loop of get_vm_name, run over the
remaining indices. -/
def get_vm_name_loop (t_name : String) (name_list : List String) :
    List Nat → Except PyErr String
  | [] => .error (.operationFailed "Unable to choose a VM name")
  | i :: rest =>
      let n := candidateVmName t_name i
      if n ∈ name_list then get_vm_name_loop t_name name_list rest
      else .ok n

/-- `get_vm_name` (model.py lines 98-105): a truthy requested name is
returned as-is; otherwise the first free name `t_name-vm-i` for
i = 1..999; OperationFailed when all 999 are taken. -/
def get_vm_name (vm_name : Option String) (t_name : String)
    (name_list : List String) : Except PyErr String :=
  if truthyStr vm_name then .ok (vm_name.getD "")
  else get_vm_name_loop t_name name_list (List.range' 1 999)

/-! ## Per-guest statistics sampler (model.py lines 245-350) -/

/-- The per-VM sample record `self.stats[vm_uuid]`: a Python dict whose
keys appear as the sampler fills them in; an absent key is `none`. -/
structure VmStats where
  timestamp : Option ℚ := none
  cputime : Option ℚ := none
  cpu : Option ℚ := none
  netRxKB : Option ℚ := none
  netTxKB : Option ℚ := none
  net_io : Option ℚ := none
  max_net_io : Option ℚ := none
  diskRdKB : Option ℚ := none
  diskWrKB : Option ℚ := none
  disk_io : Option ℚ := none
  max_disk_io : Option ℚ := none
  deriving DecidableEq, Repr

/-- An empty sample record (`{}`). -/
def VmStats.empty : VmStats := {}

/-- The result of `dom.info()`: state code, max memory, memory, number of
virtual cpus, cumulative cpu time in nanoseconds. -/
structure DomInfo where
  stateCode : Nat
  maxMem : Nat
  memKB : Nat
  ncpus : Nat
  cpuTime : ℤ
  deriving DecidableEq, Repr

/-- The device counters a domain exposes: for every `devices/interface/
target` the (rx_bytes, tx_bytes) pair (interfaceStats fields 0 and 4), and
for every `devices/disk/target` the (rd_bytes, wr_bytes) pair (blockStats
fields 1 and 3). -/
structure DomView where
  netDevs : List (String × ℤ × ℤ)
  diskDevs : List (String × ℤ × ℤ)
  deriving DecidableEq, Repr

/-- `Model.dom_state_map`; indexing with a key outside 0..6 raises
KeyError. -/
def dom_state_map : Nat → Option String
  | 0 => some "nostate"
  | 1 => some "running"
  | 2 => some "blocked"
  | 3 => some "paused"
  | 4 => some "shutdown"
  | 5 => some "shutoff"
  | 6 => some "crashed"
  | _ => none

/-- `Model.pool_state_map`. -/
def pool_state_map : Nat → Option String
  | 0 => some "inactive"
  | 1 => some "initializing"
  | 2 => some "active"
  | 3 => some "degraded"
  | 4 => some "inaccessible"
  | _ => none

/-- `_get_percentage_cpu_usage` (model.py lines 287-296) acting on one
sample record.  `base = cpuTime * 100.0 / (seconds * 1e9)` raises
ZeroDivisionError when seconds is zero, and `base / cpus` raises
ZeroDivisionError when the vcpu count is zero; there is no guard. -/
def get_percentage_cpu_usage (s : VmStats) (info : DomInfo) (seconds : ℚ) :
    Except PyErr VmStats :=
  let prevCpuTime := s.cputime.getD 0
  let cpus : Nat := info.ncpus
  let cpuTime : ℚ := (info.cpuTime : ℚ) - prevCpuTime
  if seconds = 0 then .error .zeroDivision
  else
    let base := cpuTime * 100 / (seconds * (1000 * 1000 * 1000))
    if (cpus : ℚ) = 0 then .error .zeroDivision
    else
      let percentage := max 0 (min 100 (base / (cpus : ℚ)))
      .ok { s with cputime := some (info.cpuTime : ℚ), cpu := some percentage }

/-- `_get_network_io_rate` (model.py lines 298-323) acting on one sample
record: cumulative rx/tx byte totals are summed over all interface
targets, converted to KB with divisor 1000, differenced against the stored
KB values and divided by the elapsed seconds; the running maximum is
`round(max(current_max, int(rate)), 1)`. -/
def get_network_io_rate (s : VmStats) (dom : DomView) (seconds : ℚ) :
    Except PyErr VmStats :=
  let prevNetRxKB := s.netRxKB.getD 0
  let prevNetTxKB := s.netTxKB.getD 0
  let currentMaxNetRate := s.max_net_io.getD 100
  let rx_bytes : ℤ := (dom.netDevs.map (fun d => d.2.1)).sum
  let tx_bytes : ℤ := (dom.netDevs.map (fun d => d.2.2)).sum
  let netRxKB : ℚ := (rx_bytes : ℚ) / 1000
  let netTxKB : ℚ := (tx_bytes : ℚ) / 1000
  if seconds = 0 then .error .zeroDivision
  else
    let rx_stats := (netRxKB - prevNetRxKB) / seconds
    let tx_stats := (netTxKB - prevNetTxKB) / seconds
    let rate := rx_stats + tx_stats
    let new_max := pyRound1 (max currentMaxNetRate (pyInt rate : ℚ))
    .ok { s with net_io := some rate, max_net_io := some new_max,
                 netRxKB := some netRxKB, netTxKB := some netTxKB }

/-- `_get_disk_io_rate` (model.py lines 325-350): identical pattern over
the disk targets, with KB divisor 1024. -/
def get_disk_io_rate (s : VmStats) (dom : DomView) (seconds : ℚ) :
    Except PyErr VmStats :=
  let prevDiskRdKB := s.diskRdKB.getD 0
  let prevDiskWrKB := s.diskWrKB.getD 0
  let currentMaxDiskRate := s.max_disk_io.getD 100
  let rd_bytes : ℤ := (dom.diskDevs.map (fun d => d.2.1)).sum
  let wr_bytes : ℤ := (dom.diskDevs.map (fun d => d.2.2)).sum
  let diskRdKB : ℚ := (rd_bytes : ℚ) / 1024
  let diskWrKB : ℚ := (wr_bytes : ℚ) / 1024
  if seconds = 0 then .error .zeroDivision
  else
    let rd_stats := (diskRdKB - prevDiskRdKB) / seconds
    let wr_stats := (diskWrKB - prevDiskWrKB) / seconds
    let rate := rd_stats + wr_stats
    let new_max := pyRound1 (max currentMaxDiskRate (pyInt rate : ℚ))
    .ok { s with disk_io := some rate, max_disk_io := some new_max,
                 diskRdKB := some diskRdKB, diskWrKB := some diskWrKB }

/-- The sampler's map `self.stats`, keyed by VM UUID. -/
abbrev StatsMap := List (String × VmStats)

/-- The domain data one iteration of the guest-stats loop reads from
libvirt: UUID, `dom.info()` and the device counters. -/
structure GuestDom where
  uuid : String
  info : DomInfo
  view : DomView
  deriving DecidableEq, Repr

/-- The external control plane as the guest-stats tick sees it: the VM
name list returned by `vms_get_list()` at the start of the tick, the
per-name lookup done afterwards (a name may have disappeared in between,
in which case `_get_vm` raises NotFoundError), and the current wall-clock
time. -/
structure GuestTickEnv where
  vmList : List String
  look : String → Option GuestDom
  now : ℚ

/-- One iteration of the `for name in vm_list` body of
`_update_guests_stats` (model.py lines 248-268).  Each mutation of
`self.stats` is applied in source order, so the map retained when an
exception escapes reflects the updates already performed. -/
def update_one_guest (env : GuestTickEnv) (name : String) (stats : StatsMap) :
    Except PyErr Unit × StatsMap :=
  match env.look name with
  | none =>
      (.error (.notFound ("Virtual Machine \x27" ++ name ++ "\x27 not found")),
       stats)
  | some dom =>
      match dom_state_map dom.info.stateCode with
      | none => (.error (.keyError "state"), stats)
      | some state =>
          if state ≠ "running" then
            (.ok (), alistPut stats dom.uuid VmStats.empty)
          else
            let stats :=
              if alistGet stats dom.uuid = none then
                alistPut stats dom.uuid VmStats.empty
              else stats
            let prevStats := (alistGet stats dom.uuid).getD VmStats.empty
            let seconds := env.now - prevStats.timestamp.getD 0
            let s1 := { prevStats with timestamp := some env.now }
            let stats := alistPut stats dom.uuid s1
            match get_percentage_cpu_usage s1 dom.info seconds with
            | .error e => (.error e, stats)
            | .ok s2 =>
                let stats := alistPut stats dom.uuid s2
                match get_network_io_rate s2 dom.view seconds with
                | .error e => (.error e, stats)
                | .ok s3 =>
                    let stats := alistPut stats dom.uuid s3
                    match get_disk_io_rate s3 dom.view seconds with
                    | .error e => (.error e, stats)
                    | .ok s4 => (.ok (), alistPut stats dom.uuid s4)

/-- The `for name in vm_list` loop of `_update_guests_stats`: there is no
per-VM exception handler, so the first exception leaves the loop. -/
def update_guests_go (env : GuestTickEnv) :
    List String → StatsMap → Except PyErr Unit × StatsMap
  | [], stats => (.ok (), stats)
  | name :: rest, stats =>
      match update_one_guest env name stats with
      | (.ok _, stats) => update_guests_go env rest stats
      | (.error e, stats) => (.error e, stats)

/-- `_update_guests_stats` (model.py lines 245-268): one per-guest
sampling tick over the VM list. -/
def update_guests_stats (env : GuestTickEnv) (stats : StatsMap) :
    Except PyErr Unit × StatsMap :=
  update_guests_go env env.vmList stats

/-! ## Resource lifecycle world (C1, C3, C8, C10)

The orchestration operations mutate three kinds of state: the entities
held by the external control plane (domains, networks, storage pools,
storage volumes), the object store, and the task registry.  Exceptions do
not roll state back by themselves, so every operation returns the pair of
its `Except` outcome and the world it leaves behind. -/

/-- A domain descriptor as the code manipulates it through the
DescriptorCodec: the pieces the core reads back out of the XML (name,
uuid, disk source paths, graphics endpoint). -/
structure VmDescriptor where
  dname : String
  duuid : String
  diskPaths : List String
  graphicsType : Option String
  graphicsPort : Option Nat
  deriving DecidableEq, Repr

/-- A defined domain on the control plane: its descriptor plus the data
`dom.info()` reports. -/
structure DomRec where
  desc : VmDescriptor
  stateCode : Nat
  maxMem : Nat
  memKB : Nat
  ncpus : Nat
  cpuTime : ℤ
  deriving DecidableEq, Repr

/-- A network on the control plane. -/
structure NetRec where
  name : String
  active : Bool
  autostart : Bool
  deriving DecidableEq, Repr

/-- A storage pool on the control plane; its state code indexes
`pool_state_map` (2 = active). -/
structure PoolRec where
  name : String
  stateCode : Nat
  persistent : Bool
  autostart : Bool
  path : String
  ptype : String
  capacity : Nat
  allocation : Nat
  available : Nat
  deriving DecidableEq, Repr

/-- The control-plane state: domains, networks, pools, and the existing
storage volumes as (owning pool name, volume path) pairs. -/
structure Conn where
  doms : List DomRec
  nets : List NetRec
  pools : List PoolRec
  vols : List (String × String)
  deriving DecidableEq, Repr

/-- Modelled from the spec: a template record as stored in the object
store by templates_create (kimchi/vmtemplate.py is not part of the given
source).  It carries the fields model.py reads: the optional icon, the
iso_stream flag, the storage-pool URI, the network name, and the names of
the volumes the template provisions for a new VM. -/
structure TemplateInfo where
  icon : Option String
  iso_stream : Bool
  storagepool : String
  network : String
  volNames : List String
  deriving DecidableEq, Repr

/-- A record held by the object store; the record shape depends on the
kind under which it is stored. -/
inductive StoreVal where
  | vmRec (icon : String)
  | templateRec (t : TemplateInfo)
  | scanningRec (taskId : Nat)
  | taskRec (status : String) (message : String)
  | screenshotRec (uuid : String)
  deriving DecidableEq, Repr

/-- Modelled from the spec: the ObjectStore (kimchi/objectstore.py is not
part of the given source) is a durable key-value store keyed by
(kind, id). -/
abbrev Store := List ((String × String) × StoreVal)

/-- ObjectStore `store` (upsert). -/
def storePut (st : Store) (kind ident : String) (v : StoreVal) : Store :=
  alistPut st (kind, ident) v

/-- ObjectStore `get`: `none` models the NotFoundError raised for an
absent record. -/
def storeGet (st : Store) (kind ident : String) : Option StoreVal :=
  alistGet st (kind, ident)

/-- ObjectStore `get_list`: the ids stored under a kind, in insertion
order. -/
def storeList (st : Store) (kind : String) : List String :=
  (st.filter (fun e => e.1.1 = kind)).map (fun e => e.1.2)

/-- ObjectStore `delete`: with ignore_missing the delete of an absent
record succeeds silently, otherwise it raises NotFoundError. -/
def storeDelete (st : Store) (kind ident : String) (ignoreMissing : Bool) :
    Except PyErr Store :=
  if (storeGet st kind ident).isSome then .ok (alistDrop st (kind, ident))
  else if ignoreMissing then .ok st
  else .error (.notFound ident)

/-- The whole mutable world of the Model instance. -/
structure World where
  conn : Conn
  store : Store
  nextTaskId : Nat
  startedTasks : List Nat
  graphicsPorts : List (String × Nat)
  stats : StatsMap
  fsDirs : List String
  deriving DecidableEq, Repr

/-- `ISO_POOL_NAME`. -/
def ISO_POOL_NAME : String := "kimchi_isos"

/-- Stable insert used to model `sorted(names, key=unicode.lower)`. -/
def insertByLower (s : String) : List String → List String
  | [] => [s]
  | t :: rest =>
      if t.toLower ≤ s.toLower then t :: insertByLower s rest
      else s :: t :: rest

/-- `sorted(names, key=unicode.lower)`. -/
def sortByLower (l : List String) : List String := l.foldr insertByLower []

/-- Stable insert used to model plain `sorted(names)`. -/
def insertByLe (s : String) : List String → List String
  | [] => [s]
  | t :: rest => if t ≤ s then t :: insertByLe s rest else s :: t :: rest

/-- Plain `sorted(names)`. -/
def sortStrings (l : List String) : List String := l.foldr insertByLe []

/-- `vms_get_list` (model.py lines 643-649): names of running plus defined
domains, sorted case-insensitively. -/
def vms_get_list (c : Conn) : List String :=
  sortByLower (c.doms.map (fun d => d.desc.dname))

/-- `networks_get_list` (model.py lines 843-845). -/
def networks_get_list (c : Conn) : List String :=
  sortStrings ((c.nets.filter (fun n => n.active)).map (fun n => n.name) ++
               (c.nets.filter (fun n => !n.active)).map (fun n => n.name))

/-- `storagepools_get_list` (model.py lines 1119-1126). -/
def storagepools_get_list (c : Conn) : List String :=
  sortStrings ((c.pools.filter (fun p => p.stateCode = 2)).map (fun p => p.name) ++
               (c.pools.filter (fun p => p.stateCode ≠ 2)).map (fun p => p.name))

/-- `conn.lookupByName`, returning `none` where libvirt raises the
VIR_ERR_NO_DOMAIN error. -/
def lookupByName (c : Conn) (name : String) : Option DomRec :=
  c.doms.find? (fun d => d.desc.dname = name)

/-- `_get_vm` (model.py lines 919-928): a VIR_ERR_NO_DOMAIN failure from
lookupByName becomes NotFoundError. -/
def get_vm (w : World) (name : String) : Except PyErr DomRec :=
  match lookupByName w.conn name with
  | some d => .ok d
  | none =>
      .error (.notFound ("Virtual Machine \x27" ++ name ++ "\x27 not found"))

/-- `_vm_exists` (model.py lines 909-916): NotFoundError from `_get_vm`
yields False; any other exception is re-raised. -/
def vm_exists (w : World) (name : String) : Except PyErr Bool :=
  match get_vm w name with
  | .ok _ => .ok true
  | .error (.notFound _) => .ok false
  | .error e => .error e

/-- `conn.storagePoolLookupByName`. -/
def poolLookupByName (c : Conn) (name : String) : Option PoolRec :=
  c.pools.find? (fun p => p.name = name)

/-- `conn.networkLookupByName`. -/
def netLookupByName (c : Conn) (name : String) : Option NetRec :=
  c.nets.find? (fun n => n.name = name)

/-- Replace a domain's record, keyed by name; `conn.defineXML` on an
existing name redefines it, on a fresh name appends it, leaving the
machine shut off. -/
def defineDomInConn (c : Conn) (d : VmDescriptor) : Conn :=
  if (c.doms.any (fun x => x.desc.dname = d.dname)) then
    { c with doms := c.doms.map (fun x =>
        if x.desc.dname = d.dname then
          { x with desc := d, stateCode := 5 }
        else x) }
  else
    { c with doms := c.doms ++ [{ desc := d, stateCode := 5, maxMem := 0,
                                  memKB := 0, ncpus := 0, cpuTime := 0 }] }

/-- `dom.undefine()`: remove the domain from the defined list. -/
def undefineDomInConn (c : Conn) (name : String) : Conn :=
  { c with doms := c.doms.filter (fun x => x.desc.dname ≠ name) }

/-- `pool.createXML` for a volume: libvirt refuses a volume whose path
already exists, otherwise the volume is appended to the pool. -/
def createVol (w : World) (poolName : String) (path : String) :
    Except PyErr Unit × World :=
  if w.conn.vols.any (fun v => v.2 = path) then
    (.error (.libvirtErr 0 VIR_ERR_STORAGE_VOL_EXIST
       ("storage volume already exists: " ++ path)), w)
  else
    (.ok (), { w with conn :=
      { w.conn with vols := w.conn.vols ++ [(poolName, path)] } })

/-- Remove the first volume with the given path. -/
def removeVolByPath : List (String × String) → String → List (String × String)
  | [], _ => []
  | v :: rest, p =>
      if v.2 = p then rest else v :: removeVolByPath rest p

/-- `conn.storageVolLookupByPath` followed by `vol.delete(0)`: deletes the
volume with the given path, or raises the libvirt no-storage-vol error. -/
def deleteVolByPath (w : World) (path : String) : Except PyErr Unit × World :=
  if w.conn.vols.any (fun v => v.2 = path) then
    (.ok (), { w with conn :=
      { w.conn with vols := removeVolByPath w.conn.vols path } })
  else
    (.error (.libvirtErr 0 VIR_ERR_NO_STORAGE_VOL
       ("no storage vol with matching path " ++ path)), w)

/-- A `for` loop deleting volumes by path one after the other; the first
exception leaves the loop with the deletions already done kept. -/
def deleteVolsLoop : List String → World → Except PyErr Unit × World
  | [], w => (.ok (), w)
  | p :: rest, w =>
      match deleteVolByPath w p with
      | (.ok _, w) => deleteVolsLoop rest w
      | (.error e, w) => (.error e, w)

/-- Modelled from the spec: the path of a volume forked for a new VM
(template-name mangling lives in kimchi/vmtemplate.py, which is not part
of the given source); only its uniqueness per (pool, uuid, volume) is
relevant to the core. -/
def volPath (poolPath uuidStr volName : String) : String :=
  poolPath ++ "/" ++ uuidStr ++ "-" ++ volName

/-- `LibvirtVMTemplate._storage_validate` (model.py lines 1363-1374). -/
def storage_validate (t : TemplateInfo) (w : World) : Except PyErr PoolRec :=
  match pool_name_from_uri t.storagepool with
  | .error e => .error e
  | .ok pool_name =>
      match poolLookupByName w.conn pool_name with
      | none =>
          .error (.invalidParameter "Storage specified by template does not exist")
      | some pool =>
          if pool.stateCode ≠ 2 then
            .error (.invalidParameter "Storage specified by template is not active")
          else .ok pool

/-- `LibvirtVMTemplate._network_validate` (model.py lines 1376-1386). -/
def network_validate (t : TemplateInfo) (w : World) : Except PyErr NetRec :=
  match netLookupByName w.conn t.network with
  | none =>
      .error (.invalidParameter "Network specified by template does not exist")
  | some net =>
      if !net.active then
        .error (.invalidParameter "Storage specified by template is not active")
      else .ok net

/-- Modelled from the spec: `VMTemplate.validate` checks the template's
storage pool and network against the control plane (its kimchi/vmtemplate.py
body is not part of the given source; LibvirtVMTemplate overrides exactly
these two checks in model.py). -/
def template_validate (t : TemplateInfo) (w : World) : Except PyErr Unit :=
  match storage_validate t w with
  | .error e => .error e
  | .ok _ =>
      match network_validate t w with
      | .error e => .error e
      | .ok _ => .ok ()

/-- The `for v in vol_list: pool.createXML(...)` loop of
`fork_vm_storage`. -/
def forkVolsLoop (poolName : String) : List String → World →
    Except PyErr Unit × World
  | [], w => (.ok (), w)
  | p :: rest, w =>
      match createVol w poolName p with
      | (.ok _, w) => forkVolsLoop poolName rest w
      | (.error e, w) => (.error e, w)

/-- `LibvirtVMTemplate.fork_vm_storage` (model.py lines 1393-1401):
validates the storage pool, then creates one volume per template volume
and returns the list of their paths. -/
def fork_vm_storage (t : TemplateInfo) (vm_uuid : String) (w : World) :
    Except PyErr (List String) × World :=
  match storage_validate t w with
  | .error e => (.error e, w)
  | .ok pool =>
      let vol_list := t.volNames.map (fun n => volPath pool.path vm_uuid n)
      match forkVolsLoop pool.name vol_list w with
      | (.ok _, w) => (.ok vol_list, w)
      | (.error e, w) => (.error e, w)

/-- `_get_template` (model.py lines 930-935): fetch the template record
from the object store (NotFoundError when absent) and apply the
overrides. -/
def get_template (w : World) (t_name : String)
    (poolOverride : Option String) : Except PyErr TemplateInfo :=
  match storeGet w.store "template" t_name with
  | some (.templateRec t) =>
      .ok (match poolOverride with
           | some uri => { t with storagepool := uri }
           | none => t)
  | _ => .error (.notFound t_name)

/-- The request parameters of `vms_create`. -/
structure VmsCreateParams where
  template : String
  name : Option String
  storagepool : Option String
  deriving DecidableEq, Repr

/-- The pieces of `vms_create` decided outside the modelled state: the
fresh UUID, the host capability flags, and the outcome of the
`conn.defineXML` call for the new VM. -/
structure CreateEnv where
  freshUuid : String
  qemu_stream : Bool
  qemu_stream_dns : Bool
  libvirt_stream_protocols : List String
  defineErr : Option LibvirtError
  deriving DecidableEq, Repr

/-- Modelled from the spec: `VMTemplate.to_vm_xml` builds the new domain
descriptor (kimchi/vmtemplate.py is not part of the given source); the
core only reads the name, uuid and disk paths back out of it. -/
def to_vm_xml (_t : TemplateInfo) (name uuidStr : String)
    (volArg : List String) : VmDescriptor :=
  { dname := name, duuid := uuidStr, diskPaths := volArg,
    graphicsType := some "vnc", graphicsPort := none }

/-- `vms_create` (model.py lines 603-641). -/
def vms_create (env : CreateEnv) (p : VmsCreateParams) (w : World) :
    Except PyErr String × World :=
  match template_name_from_uri p.template with
  | .error e => (.error e, w)
  | .ok t_name =>
      let vm_uuid := env.freshUuid
      let vm_list := vms_get_list w.conn
      match get_vm_name p.name t_name vm_list with
      | .error e => (.error e, w)
      | .ok name =>
          if name ∈ vm_list then
            (.error (.invalidOperation "VM already exists"), w)
          else
            match get_template w t_name p.storagepool with
            | .error e => (.error e, w)
            | .ok t =>
                if !env.qemu_stream && t.iso_stream then
                  (.error (.invalidOperation
                     "Remote ISO image is not supported by this server."), w)
                else
                  match template_validate t w with
                  | .error e => (.error e, w)
                  | .ok _ =>
                      match fork_vm_storage t vm_uuid w with
                      | (.error e, w) => (.error e, w)
                      | (.ok vol_list, w) =>
                          let w :=
                            match t.icon with
                            | some ic =>
                                if ic ≠ "" then
                                  { w with store :=
                                    storePut w.store "vm" vm_uuid (.vmRec ic) }
                                else w
                            | none => w
                          let xml := to_vm_xml t name vm_uuid vol_list
                          match env.defineErr with
                          | none =>
                              (.ok name,
                               { w with conn := defineDomInConn w.conn xml })
                          | some e =>
                              match deleteVolsLoop vol_list w with
                              | (.ok _, w) =>
                                  (.error (.operationFailed e.msg), w)
                              | (.error e2, w) => (.error e2, w)

/-! ### Storage pool creation (C3) -/

/-- The parameters of `storagepools_create` that the modelled code paths
read.  The dict is mutated in place by `_do_deep_scan`, which is modelled
by returning an updated copy. -/
structure PoolCreateParams where
  name : String
  ptype : String
  path : String
  deriving DecidableEq, Repr

/-- The externally decided outcomes of `storagepools_create`: the scan
directory prepared by the Scanner, and the results of the libvirt pool
calls. -/
structure PoolEnv where
  scanPreparedPath : String
  poolCreateErr : Option LibvirtError
  poolDefineErr : Option LibvirtError
  poolBuildErr : Option LibvirtError
  poolAutostartErr : Option LibvirtError
  deriving DecidableEq, Repr

/-- `add_task` (model.py lines 893-899): allocates the next task id and
hands the unit of work to an AsyncTask.  Modelled from the spec: the
AsyncTask (kimchi/asynctask.py is not part of the given source) persists
the task record with status running through the ObjectStore and starts
the unit of work on its own thread. -/
def add_task (w : World) : Nat × World :=
  let tid := w.nextTaskId
  (tid, { w with nextTaskId := w.nextTaskId + 1,
                 store := storePut w.store "task" (toString tid)
                   (.taskRec "running" ""),
                 startedTasks := w.startedTasks ++ [tid] })

/-- `_do_deep_scan` (model.py lines 966-985): collects the ignore list
from the active pools (read-only, with every exception swallowed),
prepares the scan directory, starts the scan as a task and records the
scanning-task/pool mapping; it also mutates the params, setting type to
dir and path to the prepared directory. -/
def do_deep_scan (env : PoolEnv) (p : PoolCreateParams) (w : World) :
    Nat × PoolCreateParams × World :=
  let prepared := env.scanPreparedPath
  let (tid, w) := add_task w
  let w := { w with store := (storePut w.store "scanning" p.name
               (.scanningRec tid)) }
  (tid, { p with ptype := "dir", path := prepared }, w)

/-- The pool descriptor `_get_pool_xml` produces. -/
structure PoolDescriptor where
  name : String
  ptype : String
  path : String
  deriving DecidableEq, Repr

/-- `_get_pool_xml` (model.py lines 1433-1486): dir pools are pure; netfs
and logical pools create their mount directory as a side effect; any
other type leaves the xml variable unassigned and raises
UnboundLocalError. -/
def get_pool_xml (p : PoolCreateParams) (w : World) :
    Except PyErr PoolDescriptor × World :=
  if p.ptype = "dir" then
    (.ok { name := p.name, ptype := p.ptype, path := p.path }, w)
  else if p.ptype = "netfs" then
    let path := "/var/lib/kimchi/nfs_mount/" ++ p.name
    let w := if path ∈ w.fsDirs then w
             else { w with fsDirs := w.fsDirs ++ [path] }
    (.ok { name := p.name, ptype := p.ptype, path := path }, w)
  else if p.ptype = "logical" then
    let path := "/var/lib/kimchi/logical_mount/" ++ p.name
    let w := if path ∈ w.fsDirs then w
             else { w with fsDirs := w.fsDirs ++ [path] }
    (.ok { name := p.name, ptype := p.ptype, path := path }, w)
  else
    (.error (.unboundLocal "xml"), w)

/-- Append a pool record to the control plane. -/
def addPool (w : World) (p : PoolRec) : World :=
  { w with conn := { w.conn with pools := w.conn.pools ++ [p] } }

/-- `pool.setAutostart` on the pool with the given name. -/
def setPoolAutostart (w : World) (name : String) (v : Bool) : World :=
  { w with conn := { w.conn with pools := w.conn.pools.map (fun p =>
      if p.name = name then { p with autostart := v } else p) } }

/-- `storagepools_create` (model.py lines 987-1023).  Note the order: the
reserved-name check and the kimchi-iso deep scan run before the
duplicate-name check, so a duplicate kimchi-iso request has already
started the scan task and stored its records when InvalidOperation is
raised. -/
def storagepools_create (env : PoolEnv) (p0 : PoolCreateParams) (w : World) :
    Except PyErr String × World :=
  if p0.name = ISO_POOL_NAME then
    (.error (.invalidOperation "StoragePool already exists"), w)
  else
    let scanned : Option Nat × PoolCreateParams × World :=
      if p0.ptype = "kimchi-iso" then
        let (tid, p1, w1) := do_deep_scan env p0 w
        (some tid, p1, w1)
      else (none, p0, w)
    match scanned with
    | (task_id, p, w) =>
        match get_pool_xml p w with
        | (.error e, w) => (.error e, w)
        | (.ok xml, w) =>
            if p.name ∈ storagepools_get_list w.conn then
              (.error (.invalidOperation
                 ("The name " ++ p.name ++ " has been used by a pool")), w)
            else
              match task_id with
              | some _ =>
                  match env.poolCreateErr with
                  | some e => (.error (.operationFailed e.msg), w)
                  | none =>
                      (.ok p.name, addPool w
                        { name := p.name, stateCode := 2, persistent := false,
                          autostart := false, path := xml.path,
                          ptype := p.ptype, capacity := 0, allocation := 0,
                          available := 0 })
              | none =>
                  match env.poolDefineErr with
                  | some e => (.error (.operationFailed e.msg), w)
                  | none =>
                      let w := addPool w
                        { name := p.name, stateCode := 0, persistent := true,
                          autostart := false, path := xml.path,
                          ptype := p.ptype, capacity := 0, allocation := 0,
                          available := 0 }
                      if p.ptype = "logical" ∨ p.ptype = "dir" then
                        match env.poolBuildErr with
                        | some e => (.error (.operationFailed e.msg), w)
                        | none =>
                            match env.poolAutostartErr with
                            | some e => (.error (.operationFailed e.msg), w)
                            | none =>
                                (.ok p.name, setPoolAutostart w p.name true)
                      else
                        match env.poolAutostartErr with
                        | some e => (.error (.operationFailed e.msg), w)
                        | none =>
                            (.ok p.name, setPoolAutostart w p.name false)

/-! ### Network and template creation (C3) -/

/-- The parameters of `networks_create` the modelled code paths read. -/
structure NetworkCreateParams where
  name : String
  connection : String
  deriving DecidableEq, Repr

/-- The externally decided outcomes of `networks_create`: the results of
the subnet auto-allocation (`_set_network_subnet`, which reads existing
networks and the free-subnet helper), the bridge-interface validation
(`_set_network_bridge`, which consults netinfo), and the libvirt define
and setAutostart calls. -/
structure NetEnv where
  subnetResult : Except PyErr Unit
  bridgeResult : Except PyErr Unit
  netDefineErr : Option LibvirtError
  setAutostartErr : Option LibvirtError

/-- Append a network record to the control plane. -/
def addNet (w : World) (n : NetRec) : World :=
  { w with conn := { w.conn with nets := w.conn.nets ++ [n] } }

/-- `network.setAutostart` on the network with the given name. -/
def setNetAutostart (w : World) (name : String) (v : Bool) : World :=
  { w with conn := { w.conn with nets := w.conn.nets.map (fun n =>
      if n.name = name then { n with autostart := v } else n) } }

/-- `networks_create` (model.py lines 814-841): the duplicate-name check
is the first thing done; subnet/bridge preparation only computes
parameters (modelled by their env outcomes); then the network is defined
and set to autostart, with libvirt failures re-raised as
OperationFailed. -/
def networks_create (env : NetEnv) (p : NetworkCreateParams) (w : World) :
    Except PyErr String × World :=
  if p.name ∈ networks_get_list w.conn then
    (.error (.invalidOperation ("Network " ++ p.name ++ " already exists")), w)
  else
    match (if p.connection = "nat" ∨ p.connection = "isolated" then
             env.subnetResult else .ok ()) with
    | .error e => (.error e, w)
    | .ok _ =>
        match (if p.connection = "bridge" then env.bridgeResult
               else .ok ()) with
        | .error e => (.error e, w)
        | .ok _ =>
            match env.netDefineErr with
            | some e => (.error (.operationFailed e.msg), w)
            | none =>
                let w := addNet w
                  { name := p.name, active := false, autostart := false }
                match env.setAutostartErr with
                | some e => (.error (.operationFailed e.msg), w)
                | none => (.ok p.name, setNetAutostart w p.name true)

/-- The externally decided outcome of constructing
`LibvirtVMTemplate(params, scan=True)` inside `templates_create`
(kimchi/vmtemplate.py is not part of the given source). -/
structure TmplEnv where
  mkTemplate : Except PyErr TemplateInfo

/-- `templates_create` (model.py lines 679-686): inside one store
session, a duplicate name fails InvalidOperation before anything is
built or stored. -/
def templates_create (env : TmplEnv) (name : String) (w : World) :
    Except PyErr String × World :=
  if name ∈ storeList w.store "template" then
    (.error (.invalidOperation "Template already exists"), w)
  else
    match env.mkTemplate with
    | .error e => (.error e, w)
    | .ok t =>
        (.ok name,
         { w with store := storePut w.store "template" name (.templateRec t) })

/-! ### VM update (C8) -/

/-- `VM_STATIC_UPDATE_PARAMS`. -/
def VM_STATIC_UPDATE_PARAMS : List (String × String) := [("name", "./name")]

/-- Modelled from the spec (DescriptorCodec): `xmlutils.xml_item_update`
rewrites the text of the addressed element; the only path the code uses
is `./name` (kimchi/xmlutils.py is not part of the given source). -/
def xml_item_update (x : VmDescriptor) (path : String) (val : String) :
    VmDescriptor :=
  if path = "./name" then { x with dname := val } else x

/-- The externally decided outcomes of the `conn.defineXML` calls made by
`_static_vm_update`, per descriptor. -/
structure UpdateEnv where
  defineErr : VmDescriptor → Option LibvirtError

/-- The `for key, val in params.items()` loop of `_static_vm_update`. -/
def applyStaticParams (params : List (String × String)) (x : VmDescriptor) :
    VmDescriptor :=
  params.foldl (fun x kv =>
    match alistGet VM_STATIC_UPDATE_PARAMS kv.1 with
    | some path => xml_item_update x path kv.2
    | none => x) x

/-- `_static_vm_update` (model.py lines 470-490).  A rename of a running
VM raises InvalidParameter; otherwise the domain is undefined and the new
descriptor defined, and if that define raises a libvirt error the old
descriptor is redefined and OperationFailed raised; a libvirt failure of
the restoring define itself propagates raw. -/
def static_vm_update (env : UpdateEnv) (dom : DomRec)
    (params : List (String × String)) (w : World) :
    Except PyErr VmDescriptor × World :=
  match dom_state_map dom.stateCode with
  | none => (.error (.keyError "state"), w)
  | some state =>
      let old_xml := dom.desc
      let new_xml := applyStaticParams params old_xml
      if params.any (fun kv => kv.1 = "name") then
        if state = "running" then
          (.error (.invalidParameter
             "vm name can just updated when vm shutoff"), w)
        else
          let w := { w with conn := undefineDomInConn w.conn dom.desc.dname }
          match env.defineErr new_xml with
          | none => (.ok new_xml, { w with conn := defineDomInConn w.conn new_xml })
          | some e =>
              match env.defineErr old_xml with
              | none =>
                  (.error (.operationFailed e.msg),
                   { w with conn := defineDomInConn w.conn old_xml })
              | some e2 =>
                  (.error (.libvirtErr e2.edom e2.ecode e2.msg), w)
      else
        match env.defineErr new_xml with
        | none => (.ok new_xml, { w with conn := defineDomInConn w.conn new_xml })
        | some e =>
            match env.defineErr old_xml with
            | none =>
                (.error (.operationFailed e.msg),
                 { w with conn := defineDomInConn w.conn old_xml })
            | some e2 =>
                (.error (.libvirtErr e2.edom e2.ecode e2.msg), w)

/-! ### VM lookup, start, stop, delete (C10) -/

/-- The externally decided pieces of `vm_lookup`: the screenshot image
path produced by `VMScreenshot.lookup` (kimchi/screenshot.py is not part
of the given source). -/
structure LookupEnv where
  screenshotLookup : Except PyErr String

/-- `_get_screenshot` (model.py lines 1223-1230): fetch the screenshot
record, creating and storing a fresh one when absent. -/
def get_screenshot (w : World) (vm_uuid : String) : World :=
  match storeGet w.store "screenshot" vm_uuid with
  | some _ => w
  | none =>
      { w with store := (storePut w.store "screenshot" vm_uuid
          (.screenshotRec vm_uuid)) }

/-- `vmscreenshot_lookup` (model.py lines 651-663): refuses a
non-running VM with NotFoundError, otherwise generates the screenshot and
stores the refreshed record. -/
def vmscreenshot_lookup (env : LookupEnv) (w : World) (name : String) :
    Except PyErr String × World :=
  match get_vm w name with
  | .error e => (.error e, w)
  | .ok dom =>
      match dom_state_map dom.stateCode with
      | none => (.error (.keyError "state"), w)
      | some state =>
          if state ≠ "running" then
            (.error (.notFound "No screenshot for stopped vm"), w)
          else
            let w := get_screenshot w dom.desc.duuid
            match env.screenshotLookup with
            | .error e => (.error e, w)
            | .ok img_path =>
                (.ok img_path,
                 { w with store := (storePut w.store "screenshot"
                     dom.desc.duuid (.screenshotRec dom.desc.duuid)) })

/-- The stats dict embedded in a `vm_lookup` result (the source
stringifies it; the values are kept structured here). -/
structure VmStatsView where
  cpu_utilization : ℚ
  net_throughput : ℚ
  net_throughput_peak : ℚ
  io_throughput : ℚ
  io_throughput_peak : ℚ
  deriving DecidableEq, Repr

/-- The dict returned by `vm_lookup`. -/
structure VmLookupRes where
  state : String
  uuid : String
  memory : Nat
  cpus : Nat
  screenshot : Option String
  icon : Option String
  graphicsType : Option String
  graphicsPort : Option Nat
  statsView : VmStatsView
  deriving DecidableEq, Repr

/-- `_vm_get_graphics` (model.py lines 578-593): read the graphics type
and port out of the descriptor; anything but vnc is reported as no
graphics. -/
def vm_get_graphics (w : World) (name : String) :
    Except PyErr (Option String × Option Nat) :=
  match get_vm w name with
  | .error e => .error e
  | .ok dom =>
      let gtype := dom.desc.graphicsType
      let port := match gtype with
                  | some _ => dom.desc.graphicsPort
                  | none => none
      .ok (if gtype = some "vnc" then (some "vnc", port) else (none, port))

/-- `vm_lookup` (model.py lines 501-542). -/
def vm_lookup (env : LookupEnv) (w : World) (name : String) :
    Except PyErr VmLookupRes × World :=
  match get_vm w name with
  | .error e => (.error e, w)
  | .ok dom =>
      match dom_state_map dom.stateCode with
      | none => (.error (.keyError "state"), w)
      | some state =>
          match vm_get_graphics w name with
          | .error e => (.error e, w)
          | .ok (graphics_type, _) =>
              let graphics_port :=
                if state = "running" then alistGet w.graphicsPorts name
                else none
              let shotRes : Except PyErr (Option String) × World :=
                if state = "running" then
                  match vmscreenshot_lookup env w name with
                  | (.ok img, w) => (.ok (some img), w)
                  | (.error (.notFound _), w) => (.ok none, w)
                  | (.error e, w) => (.error e, w)
                else if state = "shutoff" then
                  (.ok none, { w with stats :=
                     (alistPut w.stats dom.desc.duuid VmStats.empty) })
                else (.ok none, w)
              match shotRes with
              | (.error e, w) => (.error e, w)
              | (.ok screenshot, w) =>
                  let icon :=
                    match storeGet w.store "vm" dom.desc.duuid with
                    | some (.vmRec ic) => some ic
                    | _ => none
                  let vm_stats :=
                    (alistGet w.stats dom.desc.duuid).getD VmStats.empty
                  let sview : VmStatsView :=
                    { cpu_utilization := vm_stats.cpu.getD 0,
                      net_throughput := vm_stats.net_io.getD 0,
                      net_throughput_peak := vm_stats.max_net_io.getD 100,
                      io_throughput := vm_stats.disk_io.getD 0,
                      io_throughput_peak := vm_stats.max_disk_io.getD 100 }
                  (.ok { state := state, uuid := dom.desc.duuid,
                         memory := dom.memKB >>> 10, cpus := dom.ncpus,
                         screenshot := screenshot, icon := icon,
                         graphicsType := graphics_type,
                         graphicsPort := graphics_port, statsView := sview }, w)

/-- `vm_start` (model.py lines 569-571): `dom.create()` starts the
machine; libvirt refuses a domain that is already active. -/
def vm_start (w : World) (name : String) : Except PyErr Unit × World :=
  match get_vm w name with
  | .error e => (.error e, w)
  | .ok dom =>
      if dom.stateCode = 1 then
        (.error (.libvirtErr 0 VIR_ERR_INTERNAL_ERROR
           "domain is already running"), w)
      else
        (.ok (), { w with conn := { w.conn with doms := (w.conn.doms.map
           (fun d => if d.desc.dname = name then { d with stateCode := 1 }
                     else d)) } })

/-- `vm_stop` (model.py lines 573-576): a no-op for a name with no VM;
otherwise `dom.destroy()` force-stops the machine. -/
def vm_stop (w : World) (name : String) : Except PyErr Unit × World :=
  match vm_exists w name with
  | .error e => (.error e, w)
  | .ok false => (.ok (), w)
  | .ok true =>
      match get_vm w name with
      | .error e => (.error e, w)
      | .ok _ =>
          (.ok (), { w with conn := { w.conn with doms := (w.conn.doms.map
             (fun d => if d.desc.dname = name then { d with stateCode := 5 }
                       else d)) } })

/-- `_vmscreenshot_delete` (model.py lines 665-669): `_get_screenshot`
guarantees the record exists, the screenshot files are removed
externally, then the record is deleted. -/
def vmscreenshot_delete (w : World) (vm_uuid : String) : World :=
  let w := get_screenshot w vm_uuid
  match storeDelete w.store "screenshot" vm_uuid false with
  | .ok st => { w with store := st }
  | .error _ => w

/-- `vm_delete` (model.py lines 549-567): a no-op for a name with no VM;
otherwise delete the screenshot record, collect the disk paths, stop the
machine if running, undefine it, delete every referenced volume, and
drop the per-VM store record with ignore_missing. -/
def vm_delete (env : LookupEnv) (w : World) (name : String) :
    Except PyErr Unit × World :=
  match vm_exists w name with
  | .error e => (.error e, w)
  | .ok false => (.ok (), w)
  | .ok true =>
      match get_vm w name with
      | .error e => (.error e, w)
      | .ok dom =>
          let w := vmscreenshot_delete w dom.desc.duuid
          let paths := dom.desc.diskPaths
          match vm_lookup env w name with
          | (.error e, w) => (.error e, w)
          | (.ok info, w) =>
              let stopped : Except PyErr Unit × World :=
                if info.state = "running" then vm_stop w name
                else (.ok (), w)
              match stopped with
              | (.error e, w) => (.error e, w)
              | (.ok _, w) =>
                  let w := { w with conn := undefineDomInConn w.conn name }
                  match deleteVolsLoop paths w with
                  | (.error e, w) => (.error e, w)
                  | (.ok _, w) =>
                      match storeDelete w.store "vm" dom.desc.duuid true with
                      | .ok st => (.ok (), { w with store := st })
                      | .error e => (.error e, w)

/-- The CPU-percentage formula exactly as the specification words it:
`clamp(0,100, (delta-cpu-time-ns / (delta-t-seconds * 1e9 * 100)) /
vcpu-count * 100)`.  Kept separate from the code-derived
`get_percentage_cpu_usage` so the two can be compared. -/
def specCpuPercentage (deltaNs : ℚ) (deltaT : ℚ) (vcpus : ℚ) : ℚ :=
  max 0 (min 100 (deltaNs / (deltaT * (1000 * 1000 * 1000) * 100) / vcpus * 100))

/-! ## Concrete fixtures used by witnesses and counterexamples -/

/-- An empty control plane. -/
def emptyConn : Conn := { doms := [], nets := [], pools := [], vols := [] }

/-- A world with nothing in it. -/
def emptyWorld : World :=
  { conn := emptyConn, store := [], nextTaskId := 1, startedTasks := [],
    graphicsPorts := [], stats := [], fsDirs := [] }

/-- A stored template with an icon and one volume. -/
def c1tmpl : TemplateInfo :=
  { icon := some "images/icon.png", iso_stream := false,
    storagepool := "/storagepools/default", network := "default",
    volNames := ["disk0.img"] }

/-- World for the vms_create scenario: an active default pool and network,
and the template above stored under the name t1. -/
def c1world : World :=
  { emptyWorld with
    conn := { emptyConn with
      nets := [{ name := "default", active := true, autostart := true }],
      pools := [{ name := "default", stateCode := 2, persistent := true,
                  autostart := true, path := "/var/lib/libvirt/images",
                  ptype := "dir", capacity := 0, allocation := 0,
                  available := 0 }] },
    store := [(("template", "t1"), .templateRec c1tmpl)] }

/-- Environment in which the defineXML call for the new VM fails. -/
def c1env : CreateEnv :=
  { freshUuid := "u1", qemu_stream := true, qemu_stream_dns := false,
    libvirt_stream_protocols := [], defineErr := some ⟨13, 38, "define failed"⟩ }

/-- A create request naming the new VM explicitly. -/
def c1params : VmsCreateParams :=
  { template := "/templates/t1", name := some "vm1", storagepool := none }

/-- World for the duplicate-create scenarios: one network, one stored
template, one pool (the transient pool a first kimchi-iso create left
behind, also usable as a dir pool duplicate target). -/
def c3world : World :=
  { emptyWorld with
    conn := { emptyConn with
      nets := [{ name := "net1", active := true, autostart := true }],
      pools := [{ name := "deep", stateCode := 2, persistent := false,
                  autostart := false, path := "/isos", ptype := "dir",
                  capacity := 0, allocation := 0, available := 0 }] },
    store := [(("template", "tmpl1"), .templateRec c1tmpl)] }

/-- Pool-create environment in which every libvirt call succeeds. -/
def c3penv : PoolEnv :=
  { scanPreparedPath := "/var/lib/kimchi/isos/deep", poolCreateErr := none,
    poolDefineErr := none, poolBuildErr := none, poolAutostartErr := none }

/-- A second kimchi-iso create request for the existing pool name. -/
def c3isoParams : PoolCreateParams :=
  { name := "deep", ptype := "kimchi-iso", path := "/isos" }

/-- A second dir create request for the existing pool name. -/
def c3dirParams : PoolCreateParams :=
  { name := "deep", ptype := "dir", path := "/tmp/pool" }

/-- A second create request for the existing network name. -/
def c3netParams : NetworkCreateParams := { name := "net1", connection := "nat" }

/-- Network-create environment in which everything external succeeds. -/
def c3nenv : NetEnv :=
  { subnetResult := .ok (), bridgeResult := .ok (), netDefineErr := none,
    setAutostartErr := none }

/-- Template-create environment in which construction succeeds. -/
def c3tenv : TmplEnv := { mkTemplate := .ok c1tmpl }

/-- A healthy running guest used by the sampler scenarios. -/
def c7dom : GuestDom :=
  { uuid := "uuid-b",
    info := { stateCode := 1, maxMem := 1024, memKB := 1024, ncpus := 1,
              cpuTime := 1000000000 },
    view := { netDevs := [], diskDevs := [] } }

/-- A tick environment in which VM a has disappeared between the listing
and the lookup while VM b is alive and running. -/
def c7env : GuestTickEnv :=
  { vmList := ["a", "b"],
    look := fun n => if n = "b" then some c7dom else none,
    now := 10 }

/-- Descriptor of the VM being renamed. -/
def c8desc : VmDescriptor :=
  { dname := "vm1", duuid := "u1", diskPaths := [], graphicsType := none,
    graphicsPort := none }

/-- The same VM, running. -/
def c8domRunning : DomRec :=
  { desc := c8desc, stateCode := 1, maxMem := 1024, memKB := 1024, ncpus := 1,
    cpuTime := 0 }

/-- The same VM, shut off. -/
def c8domOff : DomRec := { c8domRunning with stateCode := 5 }

/-- Update environment in which defining the renamed descriptor fails and
defining the original descriptor succeeds. -/
def c8env : UpdateEnv :=
  { defineErr := fun d =>
      if d.dname = "vm2" then some ⟨13, 38, "define refused"⟩ else none }

/-- A world holding one unrelated VM. -/
def c10world : World :=
  { emptyWorld with conn := { emptyConn with doms :=
      [{ desc := { dname := "other", duuid := "u9", diskPaths := [],
                   graphicsType := none, graphicsPort := none },
         stateCode := 5, maxMem := 0, memKB := 0, ncpus := 1,
         cpuTime := 0 }] } }

/-- Lookup environment whose screenshot generation succeeds. -/
def c10env : LookupEnv := { screenshotLookup := .ok "/tmp/shot.png" }

/-! ## Helper lemmas -/

theorem alistGet_alistPut {α β : Type} [DecidableEq α]
    (l : List (α × β)) (k : α) (v : β) :
    alistGet (alistPut l k v) k = some v := by
  induction l with
  | nil => simp [alistPut, alistGet]
  | cons hd tl ih =>
      obtain ⟨k', v'⟩ := hd
      by_cases h : k' = k
      · simp [alistPut, alistGet, h]
      · simp [alistPut, alistGet, h, ih]

theorem pyRoundHalf_intCast (z : ℤ) : pyRoundHalf (z : ℚ) = z := by
  unfold pyRoundHalf
  rcases le_or_lt 0 (z : ℚ) with h | h
  · rw [if_pos h, Int.floor_eq_iff]
    constructor
    · linarith
    · linarith
  · rw [if_neg (not_le.mpr h), Int.ceil_eq_iff]
    constructor
    · linarith
    · linarith

theorem pyRound1_tenth (k : ℤ) : pyRound1 ((k : ℚ) / 10) = (k : ℚ) / 10 := by
  unfold pyRound1
  have h : (k : ℚ) / 10 * 10 = (k : ℚ) := by field_simp
  rw [h, pyRoundHalf_intCast]

theorem pyRound1_intCast (t : ℤ) : pyRound1 ((t : ℚ)) = (t : ℚ) := by
  have h := pyRound1_tenth (t * 10)
  have h2 : ((t * 10 : ℤ) : ℚ) / 10 = (t : ℚ) := by push_cast; field_simp
  rw [h2] at h
  exact h

/-- The behavior of one `round(max(current_max, int(rate)), 1)` step, for a
prior maximum that is an integer multiple of one tenth (as every value the
sampler ever stores there is): the step never decreases the maximum, and it
changes it exactly when the truncated rate exceeds it. -/
theorem runningMaxStep (m : ℚ) (k : ℤ) (hm : m = (k : ℚ) / 10) (t : ℤ) :
    m ≤ pyRound1 (max m (t : ℚ)) ∧
    (pyRound1 (max m (t : ℚ)) ≠ m ↔ m < (t : ℚ)) := by
  rcases le_or_lt (t : ℚ) m with h | h
  · rw [max_eq_left h, hm, pyRound1_tenth, ← hm]
    refine ⟨le_refl m, ?_⟩
    constructor
    · intro hc
      exact absurd rfl hc
    · intro hlt
      exact absurd hlt (not_lt.mpr h)
  · rw [max_eq_right (le_of_lt h), pyRound1_intCast]
    exact ⟨le_of_lt h, fun _ => h, fun _ => ne_of_gt h⟩

theorem get_vm_name_loop_all (t_name : String) (nl : List String) :
    ∀ l : List Nat, (∀ i ∈ l, candidateVmName t_name i ∈ nl) →
      get_vm_name_loop t_name nl l =
        .error (.operationFailed "Unable to choose a VM name")
  | [], _ => rfl
  | i :: rest, h => by
      simp only [get_vm_name_loop]
      rw [if_pos (h i (by simp))]
      exact get_vm_name_loop_all t_name nl rest (fun j hj => h j (by simp [hj]))

theorem get_vm_name_loop_first (t_name : String) (nl : List String) :
    ∀ (n a i : Nat), a ≤ i → i < a + n → candidateVmName t_name i ∉ nl →
      (∀ j, a ≤ j → j < i → candidateVmName t_name j ∈ nl) →
      get_vm_name_loop t_name nl (List.range' a n) =
        .ok (candidateVmName t_name i)
  | 0, a, i, ha, hi, _, _ => by omega
  | n + 1, a, i, ha, hi, hfree, hmin => by
      rw [List.range'_succ]
      simp only [get_vm_name_loop]
      by_cases hia : i = a
      · subst hia
        rw [if_neg hfree]
      · have halt : a < i := lt_of_le_of_ne ha (fun hc => hia hc.symm)
        rw [if_pos (hmin a (le_refl a) halt)]
        exact get_vm_name_loop_first t_name nl n (a + 1) i (by omega)
          (by omega) hfree (fun j hj1 hj2 => hmin j (by omega) hj2)

/-! ## Claim theorems -/

/-- Claim C2 (confirmed): for every call made through the wrapped session
that raises an error, the memoized slot for the connection id is set to
disconnected if and only if the error is a libvirt error with domain in
EDOMAINS and code in ECODES; every error is re-raised unchanged, and any
non-connection-class failure (and any success) leaves the slots
untouched. -/
theorem C2_connection_error_classification {α : Type} (connId : Nat)
    (conns : ConnMap) (out : Except CallErr α) :
    (∀ v, out = .ok v → wrapMethod connId conns out = (out, conns)) ∧
    (∀ m, out = .error (.other m) →
       wrapMethod connId conns out = (out, conns)) ∧
    (∀ e, out = .error (.virt e) →
       (wrapMethod connId conns out).1 = out ∧
       ((e.edom ∈ EDOMAINS ∧ e.ecode ∈ ECODES) →
          (wrapMethod connId conns out).2 = alistPut conns connId none ∧
          alistGet (wrapMethod connId conns out).2 connId = some none) ∧
       (¬(e.edom ∈ EDOMAINS ∧ e.ecode ∈ ECODES) →
          (wrapMethod connId conns out).2 = conns)) := by
  refine ⟨?_, ?_, ?_⟩
  · intro v hv
    subst hv
    rfl
  · intro m hm
    subst hm
    rfl
  · intro e he
    subst he
    have hcls : connectionClass e = true ↔
        (e.edom ∈ EDOMAINS ∧ e.ecode ∈ ECODES) := by
      simp [connectionClass]
    by_cases h : e.edom ∈ EDOMAINS ∧ e.ecode ∈ ECODES
    · have hb : connectionClass e = true := hcls.mpr h
      refine ⟨?_, ?_, ?_⟩
      · simp [wrapMethod, hb]
      · intro _
        constructor
        · simp [wrapMethod, hb]
        · simp [wrapMethod, hb, alistGet_alistPut]
      · intro hc
        exact absurd h hc
    · have hb : connectionClass e = false := by
        rcases Bool.eq_false_or_eq_true (connectionClass e) with ht | hf
        · exact absurd (hcls.mp ht) h
        · exact hf
      refine ⟨?_, ?_, ?_⟩
      · simp [wrapMethod, hb]
      · intro hc
        exact absurd hc h
      · intro _
        simp [wrapMethod, hb]

/-- Witness for C2: a remote system-error (domain 13, code 38) raised
through slot 0 is re-raised and leaves the slot disconnected. -/
theorem C2_connection_error_classification_witness :
    ((13 ∈ EDOMAINS ∧ 38 ∈ ECODES) ∧
     (wrapMethod 0 [(0, some 1)]
        (.error (.virt ⟨13, 38, "broken"⟩) : Except CallErr Unit)).1 =
       .error (.virt ⟨13, 38, "broken"⟩) ∧
     (wrapMethod 0 [(0, some 1)]
        (.error (.virt ⟨13, 38, "broken"⟩) : Except CallErr Unit)).2 =
       [(0, none)]) := by
  have h := (C2_connection_error_classification 0 [(0, some 1)]
    (.error (.virt ⟨13, 38, "broken"⟩) : Except CallErr Unit)).2.2
    ⟨13, 38, "broken"⟩ rfl
  have hmem : (13 ∈ EDOMAINS ∧ 38 ∈ ECODES) := by decide
  refine ⟨hmem, h.1, ?_⟩
  rw [(h.2.1 hmem).1]
  rfl

/-- Claim C5 (confirmed): with prior cumulative counters rx=1000 and
tx=2000 bytes (stored as 1 KB and 2 KB) and current counters rx=3000 and
tx=5000 bytes over 10 elapsed seconds, the computed network throughput is
((3000-1000)/1000 + (5000-2000)/1000)/10 = 0.5 KB/s. -/
theorem C5_network_rate_example :
    get_network_io_rate { netRxKB := some 1, netTxKB := some 2 }
      { netDevs := [("vnet0", 3000, 5000)], diskDevs := [] } 10 =
      .ok { netRxKB := some 3, netTxKB := some 5, net_io := some (1/2),
            max_net_io := some 100 } ∧
    (((3000 : ℚ) - 1000) / 1000 + ((5000 : ℚ) - 2000) / 1000) / 10 = 1/2 := by
  constructor
  · simp only [get_network_io_rate]
    norm_num [pyInt, pyRound1, pyRoundHalf, max_def, min_def]
  · norm_num

/-- Claim C9 (confirmed): an unnamed VM request from template t gets the
name t-vm-i for the smallest i in 1..999 whose name is not already taken,
and when every candidate in 1..999 is taken the request fails
OperationFailed. -/
theorem C9_vm_name_generation (t_name : String) (name_list : List String) :
    ((∀ i, 1 ≤ i → i ≤ 999 → candidateVmName t_name i ∈ name_list) →
       get_vm_name none t_name name_list =
         .error (.operationFailed "Unable to choose a VM name")) ∧
    (∀ i, 1 ≤ i → i ≤ 999 → candidateVmName t_name i ∉ name_list →
       (∀ j, 1 ≤ j → j < i → candidateVmName t_name j ∈ name_list) →
       get_vm_name none t_name name_list = .ok (candidateVmName t_name i)) := by
  constructor
  · intro h
    simp only [get_vm_name, truthyStr, Bool.false_eq_true, if_false]
    apply get_vm_name_loop_all
    intro i hi
    rw [List.mem_range'_1] at hi
    exact h i hi.1 (by omega)
  · intro i h1 h2 hfree hmin
    simp only [get_vm_name, truthyStr, Bool.false_eq_true, if_false]
    exact get_vm_name_loop_first t_name name_list 999 1 i h1 (by omega)
      hfree hmin

/-- Witness for C9: with tmpl-vm-1 and tmpl-vm-2 taken, the generated name
is tmpl-vm-3. -/
theorem C9_vm_name_generation_witness :
    get_vm_name none "tmpl" ["tmpl-vm-1", "tmpl-vm-2"] = .ok "tmpl-vm-3" := by
  have h := (C9_vm_name_generation "tmpl" ["tmpl-vm-1", "tmpl-vm-2"]).2 3
    (by omega) (by omega) (by decide)
    (by
      intro j hj1 hj2
      interval_cases j
      · decide
      · decide)
  exact h

/-- Claim C10 (confirmed): for a name with no corresponding VM, vm_delete
and vm_stop return silently without changing any state, while vm_lookup
and vm_start raise NotFoundError. -/
theorem C10_missing_vm_semantics (env : LookupEnv) (w : World) (name : String)
    (h : lookupByName w.conn name = none) :
    vm_delete env w name = (.ok (), w) ∧
    vm_stop w name = (.ok (), w) ∧
    vm_lookup env w name =
      (.error (.notFound ("Virtual Machine \x27" ++ name ++ "\x27 not found")),
       w) ∧
    vm_start w name =
      (.error (.notFound ("Virtual Machine \x27" ++ name ++ "\x27 not found")),
       w) := by
  have hg : get_vm w name =
      .error (.notFound ("Virtual Machine \x27" ++ name ++ "\x27 not found")) := by
    rw [get_vm, h]
  refine ⟨?_, ?_, ?_, ?_⟩
  · simp [vm_delete, vm_exists, hg]
  · simp [vm_stop, vm_exists, hg]
  · simp [vm_lookup, hg]
  · simp [vm_start, hg]

/-- Claim C4 (counterexample): with zero vcpus the CPU computation raises
ZeroDivisionError instead of flooring the result to 0, and at full
single-cpu usage (1e9 ns of cpu time over 1 s) the code computes 100
while the formula written in the claim computes 1. -/
theorem C4_cpu_usage_cex :
    get_percentage_cpu_usage VmStats.empty
      { stateCode := 1, maxMem := 0, memKB := 0, ncpus := 0,
        cpuTime := 5000000000 } 5 = .error .zeroDivision ∧
    get_percentage_cpu_usage VmStats.empty
      { stateCode := 1, maxMem := 0, memKB := 0, ncpus := 1,
        cpuTime := 1000000000 } 1 =
      .ok { cputime := some 1000000000, cpu := some 100 } ∧
    specCpuPercentage 1000000000 1 1 = 1 ∧
    (100 : ℚ) ≠ 1 := by
  refine ⟨?_, ?_, ?_, by norm_num⟩
  · simp only [get_percentage_cpu_usage, VmStats.empty]
    norm_num
  · simp only [get_percentage_cpu_usage, VmStats.empty]
    norm_num [max_def, min_def]
  · norm_num [specCpuPercentage, max_def, min_def]

/-- Claim C4 (amended): on a sampling step with nonzero elapsed time the
computed CPU percentage equals clamp(0,100, ((delta cpu-time-ns * 100) /
(delta-t-seconds * 1e9)) / vcpu-count); when the vcpu count is zero the
division raises ZeroDivisionError — there is no guard flooring the result
to 0. -/
theorem C4_cpu_usage_amended (s : VmStats) (info : DomInfo) (seconds : ℚ)
    (hs : seconds ≠ 0) :
    (info.ncpus = 0 →
       get_percentage_cpu_usage s info seconds = .error .zeroDivision) ∧
    (info.ncpus ≠ 0 →
       get_percentage_cpu_usage s info seconds =
         .ok { s with cputime := some (info.cpuTime : ℚ),
                      cpu := some (max 0 (min 100
                        ((((info.cpuTime : ℚ) - s.cputime.getD 0) * 100 /
                           (seconds * (1000 * 1000 * 1000))) /
                          (info.ncpus : ℚ)))) }) := by
  constructor
  · intro h
    simp [get_percentage_cpu_usage, hs, h]
  · intro h
    simp [get_percentage_cpu_usage, hs, Nat.cast_eq_zero, h]

/-- Witness for C4: two vcpus using 2e9 ns over 10 s yields 10 percent. -/
theorem C4_cpu_usage_amended_witness :
    get_percentage_cpu_usage VmStats.empty
      { stateCode := 1, maxMem := 0, memKB := 0, ncpus := 2,
        cpuTime := 2000000000 } 10 =
      .ok { cputime := some 2000000000, cpu := some 10 } := by
  have h := (C4_cpu_usage_amended VmStats.empty
    { stateCode := 1, maxMem := 0, memKB := 0, ncpus := 2,
      cpuTime := 2000000000 } 10 (by norm_num)).2 (by decide)
  rw [h]
  simp only [VmStats.empty]
  norm_num [max_def, min_def]

/-- Claim C6 (counterexample): with prior maximum 100 (the default) and a
computed network rate of 100.7 KB/s (100700 rx bytes over one second),
the rate exceeds the prior maximum yet the stored maximum stays 100: the
code truncates the rate with int() before comparing. -/
theorem C6_running_max_cex :
    get_network_io_rate { netRxKB := some 0, netTxKB := some 0 }
      { netDevs := [("vnet0", 100700, 0)], diskDevs := [] } 1 =
      .ok { netRxKB := some (1007/10), netTxKB := some 0,
            net_io := some (1007/10), max_net_io := some 100 } ∧
    (100 : ℚ) < 1007/10 := by
  constructor
  · simp only [get_network_io_rate]
    norm_num [pyInt, pyRound1, pyRoundHalf, max_def, min_def]
  · norm_num

/-- Claim C6 (amended): on every network and disk sampling step with
nonzero elapsed time, and a prior stored maximum that is an integer
multiple of one tenth (as every value the sampler stores there is), the
stored running maximum never decreases, and it changes exactly when the
integer truncation int(rate) of the newly computed rate exceeds the prior
maximum. -/
theorem C6_running_max_amended (s : VmStats) (dv : DomView) (seconds : ℚ)
    (hs : seconds ≠ 0) (kn kd : ℤ)
    (hkn : s.max_net_io.getD 100 = (kn : ℚ) / 10)
    (hkd : s.max_disk_io.getD 100 = (kd : ℚ) / 10) :
    (∃ r, get_network_io_rate s dv seconds = .ok r ∧
       s.max_net_io.getD 100 ≤ r.max_net_io.getD 100 ∧
       (r.max_net_io.getD 100 ≠ s.max_net_io.getD 100 ↔
          s.max_net_io.getD 100 < (pyInt (r.net_io.getD 0) : ℚ))) ∧
    (∃ r, get_disk_io_rate s dv seconds = .ok r ∧
       s.max_disk_io.getD 100 ≤ r.max_disk_io.getD 100 ∧
       (r.max_disk_io.getD 100 ≠ s.max_disk_io.getD 100 ↔
          s.max_disk_io.getD 100 < (pyInt (r.disk_io.getD 0) : ℚ))) := by
  constructor
  · simp only [get_network_io_rate]
    rw [if_neg hs]
    refine ⟨_, rfl, ?_, ?_⟩
    · simpa using (runningMaxStep (s.max_net_io.getD 100) kn hkn _).1
    · simpa using (runningMaxStep (s.max_net_io.getD 100) kn hkn _).2
  · simp only [get_disk_io_rate]
    rw [if_neg hs]
    refine ⟨_, rfl, ?_, ?_⟩
    · simpa using (runningMaxStep (s.max_disk_io.getD 100) kd hkd _).1
    · simpa using (runningMaxStep (s.max_disk_io.getD 100) kd hkd _).2

/-- Witness for C6: a concrete step from the empty record over one second
of counters. -/
theorem C6_running_max_amended_witness :
    (∃ r, get_network_io_rate VmStats.empty
        { netDevs := [("vnet0", 250000, 0)], diskDevs := [("vda", 512000, 0)] }
        1 = .ok r ∧
      VmStats.empty.max_net_io.getD 100 ≤ r.max_net_io.getD 100 ∧
      (r.max_net_io.getD 100 ≠ VmStats.empty.max_net_io.getD 100 ↔
         VmStats.empty.max_net_io.getD 100 < (pyInt (r.net_io.getD 0) : ℚ))) ∧
    (∃ r, get_disk_io_rate VmStats.empty
        { netDevs := [("vnet0", 250000, 0)], diskDevs := [("vda", 512000, 0)] }
        1 = .ok r ∧
      VmStats.empty.max_disk_io.getD 100 ≤ r.max_disk_io.getD 100 ∧
      (r.max_disk_io.getD 100 ≠ VmStats.empty.max_disk_io.getD 100 ↔
         VmStats.empty.max_disk_io.getD 100 < (pyInt (r.disk_io.getD 0) : ℚ))) :=
  C6_running_max_amended VmStats.empty
    { netDevs := [("vnet0", 250000, 0)], diskDevs := [("vda", 512000, 0)] }
    1 (by norm_num) 1000 1000 (by norm_num [VmStats.empty])
    (by norm_num [VmStats.empty])

theorem update_guests_go_append (env : GuestTickEnv) :
    ∀ (pre rest : List String) (stats mid : StatsMap),
      update_guests_go env pre stats = (.ok (), mid) →
      update_guests_go env (pre ++ rest) stats = update_guests_go env rest mid
  | [], rest, stats, mid, h => by
      simp only [update_guests_go] at h
      cases h
      rfl
  | a :: l, rest, stats, mid, h => by
      rw [List.cons_append]
      simp only [update_guests_go] at h ⊢
      rcases hone : update_one_guest env a stats with ⟨r, s⟩
      rw [hone] at h
      cases r with
      | ok u => exact update_guests_go_append env l rest s mid h
      | error e => simp at h

/-- Claim C7 (counterexample): in a tick whose list holds VMs a and b,
where a disappeared between the listing and the per-VM lookup, the tick
raises NotFoundError and VM b is never sampled: the stats map stays
empty. -/
theorem C7_tick_abort_cex :
    update_guests_stats c7env [] =
      (.error (.notFound "Virtual Machine \x27a\x27 not found"), []) := rfl

/-- Claim C7 (amended): the guest sampling tick has no per-VM exception
handler: when sampling one VM raises, the error propagates out of the
tick, and no VM after the failing one in the list is sampled — the map is
left exactly as it was at the moment of the failure. -/
theorem C7_tick_abort_amended (env : GuestTickEnv) (pre post : List String)
    (name : String) (stats mid fin : StatsMap) (e : PyErr)
    (hlist : env.vmList = pre ++ name :: post)
    (hpre : update_guests_go env pre stats = (.ok (), mid))
    (hfail : update_one_guest env name mid = (.error e, fin)) :
    update_guests_stats env stats = (.error e, fin) := by
  rw [update_guests_stats, hlist,
    update_guests_go_append env pre (name :: post) stats mid hpre]
  simp only [update_guests_go]
  rw [hfail]

/-- Witness for C7: instantiating the abort property on the concrete
two-VM tick. -/
theorem C7_tick_abort_amended_witness :
    update_guests_stats c7env [] =
      (.error (.notFound ("Virtual Machine \x27" ++ "a" ++ "\x27 not found")),
       []) :=
  C7_tick_abort_amended c7env [] ["b"] "a" [] [] []
    (.notFound ("Virtual Machine \x27" ++ "a" ++ "\x27 not found"))
    rfl rfl rfl

/-- Claim C8 (counterexample): renaming the running VM vm1 fails with
InvalidParameter — not with the InvalidOperation kind the claim names. -/
theorem C8_rename_cex :
    static_vm_update c8env c8domRunning [("name", "vm2")] emptyWorld =
      (.error (.invalidParameter "vm name can just updated when vm shutoff"),
       emptyWorld) ∧
    PyErr.kindName
      (.invalidParameter "vm name can just updated when vm shutoff") ≠
      "InvalidOperation" := by
  constructor
  · rfl
  · decide

/-- Claim C8 (amended): a rename request for a running VM fails with
InvalidParameter (message: vm name can just updated when vm shutoff) and
changes nothing; for a powered-off VM whose new-descriptor define fails,
the domain is undefined, the prior descriptor is automatically redefined,
and OperationFailed carrying the libvirt message is raised. -/
theorem C8_rename_amended (env : UpdateEnv) (dom : DomRec)
    (params : List (String × String)) (w : World)
    (hname : params.any (fun kv => kv.1 = "name") = true) :
    (dom.stateCode = 1 →
       static_vm_update env dom params w =
         (.error (.invalidParameter "vm name can just updated when vm shutoff"),
          w)) ∧
    (∀ e, dom.stateCode = 5 →
       env.defineErr (applyStaticParams params dom.desc) = some e →
       env.defineErr dom.desc = none →
       static_vm_update env dom params w =
         (.error (.operationFailed e.msg),
          { w with conn := (defineDomInConn
              (undefineDomInConn w.conn dom.desc.dname) dom.desc) }) ∧
       dom.desc ∈ (defineDomInConn (undefineDomInConn w.conn dom.desc.dname)
         dom.desc).doms.map (fun d => d.desc)) := by
  constructor
  · intro h1
    simp [static_vm_update, h1, dom_state_map, hname]
  · intro e h5 hnew hold
    constructor
    · simp only [static_vm_update, h5, dom_state_map]
      rw [if_pos hname]
      rw [if_neg (by decide : ¬("shutoff" = "running"))]
      rw [hnew, hold]
    · have hany : ((undefineDomInConn w.conn dom.desc.dname).doms.any
          (fun x => x.desc.dname = dom.desc.dname)) = false := by
        rw [List.any_eq_false]
        intro x hx
        simp only [undefineDomInConn, List.mem_filter] at hx
        simpa using hx.2
      simp [defineDomInConn, hany]

/-- Witness for C8: the shut-off VM vm1 renamed to vm2 with the define of
the new descriptor refused: the old descriptor is redefined and
OperationFailed raised. -/
theorem C8_rename_amended_witness :
    static_vm_update c8env c8domOff [("name", "vm2")] emptyWorld =
      (.error (.operationFailed "define refused"),
       { emptyWorld with conn := (defineDomInConn
           (undefineDomInConn emptyWorld.conn "vm1") c8desc) }) ∧
    c8desc ∈ (defineDomInConn (undefineDomInConn emptyWorld.conn "vm1")
      c8desc).doms.map (fun d => d.desc) :=
  (C8_rename_amended c8env c8domOff [("name", "vm2")] emptyWorld
    (by decide)).2 ⟨13, 38, "define refused"⟩ rfl rfl rfl

/-- Witness for C10: in a world holding only the VM named other, the four
operations behave as claimed for the name ghost. -/
theorem C10_missing_vm_semantics_witness :
    vm_delete c10env c10world "ghost" = (.ok (), c10world) ∧
    vm_stop c10world "ghost" = (.ok (), c10world) ∧
    vm_lookup c10env c10world "ghost" =
      (.error (.notFound "Virtual Machine \x27ghost\x27 not found"),
       c10world) ∧
    vm_start c10world "ghost" =
      (.error (.notFound "Virtual Machine \x27ghost\x27 not found"),
       c10world) :=
  C10_missing_vm_semantics c10env c10world "ghost" rfl

theorem forkVolsLoop_ok (pn : String) :
    ∀ (paths : List String) (w : World),
      (∀ p ∈ paths, ∀ v ∈ w.conn.vols, v.2 ≠ p) → paths.Nodup →
      forkVolsLoop pn paths w =
        (.ok (), { w with conn := { w.conn with
           vols := w.conn.vols ++ paths.map (fun p => (pn, p)) } })
  | [], w, _, _ => by
      simp [forkVolsLoop]
  | p :: rest, w, hfresh, hnd => by
      simp only [forkVolsLoop, createVol]
      have hany : (w.conn.vols.any (fun v => v.2 = p)) = false := by
        rw [List.any_eq_false]
        intro v hv
        simpa using hfresh p (by simp) v hv
      rw [hany]
      simp only [Bool.false_eq_true, if_false]
      have hfresh2 : ∀ q ∈ rest, ∀ v ∈ (w.conn.vols ++ [(pn, p)]), v.2 ≠ q := by
        intro q hq v hv
        rcases List.mem_append.mp hv with hv1 | hv2
        · exact hfresh q (by simp [hq]) v hv1
        · have hvp : v = (pn, p) := by simpa using hv2
          subst hvp
          intro hc
          have hpq : p = q := hc
          subst hpq
          exact (List.nodup_cons.mp hnd).1 hq
      have hrec := forkVolsLoop_ok pn rest
        { w with conn := { w.conn with vols := w.conn.vols ++ [(pn, p)] } }
        hfresh2 (List.nodup_cons.mp hnd).2
      rw [hrec]
      simp [List.append_assoc]

theorem removeVolByPath_append (pn p : String) :
    ∀ (orig tail : List (String × String)),
      (∀ v ∈ orig, v.2 ≠ p) →
      removeVolByPath (orig ++ (pn, p) :: tail) p = orig ++ tail
  | [], tail, _ => by simp [removeVolByPath]
  | v :: rest, tail, h => by
      simp only [List.cons_append, removeVolByPath]
      rw [if_neg (h v (by simp))]
      congr 1
      exact removeVolByPath_append pn p rest tail (fun x hx => h x (by simp [hx]))

theorem deleteVolsLoop_restore (pn : String) :
    ∀ (paths : List String) (orig : List (String × String)) (w : World),
      w.conn.vols = orig ++ paths.map (fun p => (pn, p)) →
      (∀ p ∈ paths, ∀ v ∈ orig, v.2 ≠ p) → paths.Nodup →
      deleteVolsLoop paths w =
        (.ok (), { w with conn := { w.conn with vols := orig } })
  | [], orig, w, hw, _, _ => by
      simp only [List.map_nil, List.append_nil] at hw
      simp only [deleteVolsLoop]
      rw [← hw]
  | p :: rest, orig, w, hw, hfresh, hnd => by
      simp only [deleteVolsLoop, deleteVolByPath]
      have hmem : (w.conn.vols.any (fun v => v.2 = p)) = true := by
        rw [hw, List.any_eq_true]
        exact ⟨(pn, p), by simp, by simp⟩
      rw [hmem]
      simp only [if_true]
      have hrm : removeVolByPath w.conn.vols p = orig ++ rest.map (fun q => (pn, q)) := by
        rw [hw, List.map_cons]
        exact removeVolByPath_append pn p orig _ (hfresh p (by simp))
      rw [hrm]
      have hrec := deleteVolsLoop_restore pn rest orig
        { w with conn := { w.conn with vols := orig ++ rest.map (fun q => (pn, q)) } }
        rfl (fun q hq => hfresh q (by simp [hq])) (List.nodup_cons.mp hnd).2
      rw [hrec]

/-- Claim C1 (counterexample): in the concrete failing create (template t1
with an icon, defineXML refused), the operation does fail OperationFailed
— but the icon record stored for the new UUID u1 is still in the object
store afterwards, so the rollback does not cover everything the operation
created. -/
theorem C1_rollback_cex :
    (vms_create c1env c1params c1world).1 =
      .error (.operationFailed "define failed") ∧
    storeGet (vms_create c1env c1params c1world).2.store "vm" "u1" =
      some (.vmRec "images/icon.png") ∧
    (vms_create c1env c1params c1world).2.conn = c1world.conn := by
  refine ⟨rfl, rfl, rfl⟩

/-- Claim C1 (amended): when the VM definition call fails after the N
template volumes were forked for the attempt, vms_create deletes exactly
those N volumes and leaves zero VMs defined for the attempt — the control
plane is returned to its prior state — and re-raises the failure as
OperationFailed carrying the original message; the icon record stored for
the new VM UUID, however, is not rolled back and remains in the object
store. -/
theorem C1_rollback_amended (env : CreateEnv) (p : VmsCreateParams)
    (w : World) (t_name vmname : String) (t : TemplateInfo) (pool : PoolRec)
    (e : LibvirtError)
    (h_uri : template_name_from_uri p.template = .ok t_name)
    (h_gen : get_vm_name p.name t_name (vms_get_list w.conn) = .ok vmname)
    (h_dup : vmname ∉ vms_get_list w.conn)
    (h_t : get_template w t_name p.storagepool = .ok t)
    (h_iso : (!env.qemu_stream && t.iso_stream) = false)
    (h_sv : storage_validate t w = .ok pool)
    (h_nv : ∃ net, network_validate t w = .ok net)
    (h_fresh : ∀ n ∈ t.volNames, ∀ v ∈ w.conn.vols,
       v.2 ≠ volPath pool.path env.freshUuid n)
    (h_nd : (t.volNames.map (volPath pool.path env.freshUuid)).Nodup)
    (h_def : env.defineErr = some e) :
    vms_create env p w =
      (.error (.operationFailed e.msg),
       { w with store :=
           (match t.icon with
            | some ic =>
                if ic ≠ "" then
                  storePut w.store "vm" env.freshUuid (.vmRec ic)
                else w.store
            | none => w.store) }) := by
  obtain ⟨net, h_nv⟩ := h_nv
  have h_fresh2 : ∀ q ∈ t.volNames.map (volPath pool.path env.freshUuid),
      ∀ v ∈ w.conn.vols, v.2 ≠ q := by
    intro q hq v hv
    obtain ⟨n, hn, rfl⟩ := List.mem_map.mp hq
    exact h_fresh n hn v hv
  have hfork := forkVolsLoop_ok pool.name
    (t.volNames.map (volPath pool.path env.freshUuid)) w h_fresh2 h_nd
  rcases hic : t.icon with _ | ic
  · simp only [vms_create, h_uri, h_gen, h_t, h_iso, h_def, template_validate,
      h_sv, h_nv, fork_vm_storage, if_neg h_dup, Bool.false_eq_true, if_false,
      hfork, hic]
    have hdel := deleteVolsLoop_restore pool.name
      (t.volNames.map (volPath pool.path env.freshUuid)) w.conn.vols
      { w with conn := { w.conn with
          vols := w.conn.vols ++
            (t.volNames.map (volPath pool.path env.freshUuid)).map
              (fun q => (pool.name, q)) } }
      rfl h_fresh2 h_nd
    rw [hdel]
  · by_cases hic2 : ic = ""
    · simp only [vms_create, h_uri, h_gen, h_t, h_iso, h_def, template_validate,
        h_sv, h_nv, fork_vm_storage, if_neg h_dup, Bool.false_eq_true, if_false,
        hfork, hic, hic2, ne_eq, not_true_eq_false, if_false]
      have hdel := deleteVolsLoop_restore pool.name
        (t.volNames.map (volPath pool.path env.freshUuid)) w.conn.vols
        { w with conn := { w.conn with
            vols := w.conn.vols ++
              (t.volNames.map (volPath pool.path env.freshUuid)).map
                (fun q => (pool.name, q)) } }
        rfl h_fresh2 h_nd
      rw [hdel]
    · simp only [vms_create, h_uri, h_gen, h_t, h_iso, h_def, template_validate,
        h_sv, h_nv, fork_vm_storage, if_neg h_dup, Bool.false_eq_true, if_false,
        hfork, hic, hic2, ne_eq, not_false_eq_true, if_true]
      have hdel := deleteVolsLoop_restore pool.name
        (t.volNames.map (volPath pool.path env.freshUuid)) w.conn.vols
        { w with
          store := (storePut w.store "vm" env.freshUuid (.vmRec ic)),
          conn := { w.conn with
            vols := (w.conn.vols ++
              (t.volNames.map (volPath pool.path env.freshUuid)).map
                (fun q => (pool.name, q))) } }
        rfl h_fresh2 h_nd
      rw [hdel]

/-- Witness for C1: the amended property instantiated on the concrete
failing create of the counterexample world. -/
theorem C1_rollback_amended_witness :
    vms_create c1env c1params c1world =
      (.error (.operationFailed "define failed"),
       { c1world with store := (storePut c1world.store "vm" "u1"
           (.vmRec "images/icon.png")) }) := by
  have h := C1_rollback_amended c1env c1params c1world "t1" "vm1" c1tmpl
    { name := "default", stateCode := 2, persistent := true,
      autostart := true, path := "/var/lib/libvirt/images", ptype := "dir",
      capacity := 0, allocation := 0, available := 0 }
    ⟨13, 38, "define failed"⟩
    rfl rfl (by decide) rfl rfl rfl ⟨_, rfl⟩ (by decide) (by decide) rfl
  exact h

/-- Claim C3 (counterexample): a second kimchi-iso pool create for the
already-used name deep does fail InvalidOperation — but only after the
deep-scan side task has been started and its scanning record written to
the store, so backing state has been mutated. -/
theorem C3_duplicate_create_cex :
    (storagepools_create c3penv c3isoParams c3world).1 =
      .error (.invalidOperation "The name deep has been used by a pool") ∧
    storeGet (storagepools_create c3penv c3isoParams c3world).2.store
      "scanning" "deep" = some (.scanningRec 1) ∧
    (storagepools_create c3penv c3isoParams c3world).2.startedTasks = [1] := by
  refine ⟨rfl, rfl, rfl⟩

/-- Claim C3 (amended): a second create with an already-used name fails
InvalidOperation for networks, templates and storage pools; for networks
and templates, and for pools of the synchronously-created types (dir,
netfs, logical), no backing state is mutated (no entity defined, no store
record written, no task started).  A duplicate-named pool request of type
kimchi-iso, however, starts the deep-scan side task and writes its task
and scanning store records before the duplicate-name check fails. -/
theorem C3_duplicate_create_amended (w : World) (nenv : NetEnv)
    (np : NetworkCreateParams) (tenv : TmplEnv) (tname : String)
    (penv : PoolEnv) (pp : PoolCreateParams) :
    (np.name ∈ networks_get_list w.conn →
       networks_create nenv np w =
         (.error (.invalidOperation ("Network " ++ np.name ++ " already exists")),
          w)) ∧
    (tname ∈ storeList w.store "template" →
       templates_create tenv tname w =
         (.error (.invalidOperation "Template already exists"), w)) ∧
    (pp.name ≠ ISO_POOL_NAME → pp.ptype ≠ "kimchi-iso" →
       (pp.ptype = "dir" ∨ pp.ptype = "netfs" ∨ pp.ptype = "logical") →
       pp.name ∈ storagepools_get_list w.conn →
       (storagepools_create penv pp w).1 =
         .error (.invalidOperation
           ("The name " ++ pp.name ++ " has been used by a pool")) ∧
       (storagepools_create penv pp w).2.conn = w.conn ∧
       (storagepools_create penv pp w).2.store = w.store ∧
       (storagepools_create penv pp w).2.startedTasks = w.startedTasks ∧
       (storagepools_create penv pp w).2.nextTaskId = w.nextTaskId) ∧
    (pp.name ≠ ISO_POOL_NAME → pp.ptype = "kimchi-iso" →
       pp.name ∈ storagepools_get_list w.conn →
       (storagepools_create penv pp w).1 =
         .error (.invalidOperation
           ("The name " ++ pp.name ++ " has been used by a pool")) ∧
       (storagepools_create penv pp w).2.store =
         storePut (storePut w.store "task" (toString w.nextTaskId)
           (.taskRec "running" "")) "scanning" pp.name
           (.scanningRec w.nextTaskId) ∧
       (storagepools_create penv pp w).2.startedTasks =
         w.startedTasks ++ [w.nextTaskId]) := by
  refine ⟨?_, ?_, ?_, ?_⟩
  · intro h
    simp [networks_create, h]
  · intro h
    simp [templates_create, h]
  · intro hISO hNotKiso htype hdup
    rcases htype with h1 | h1 | h1
    · refine ⟨?_, ?_, ?_, ?_, ?_⟩ <;>
        simp [storagepools_create, get_pool_xml, hISO, hNotKiso, h1, hdup]
    · by_cases hfs : ("/var/lib/kimchi/nfs_mount/" ++ pp.name) ∈ w.fsDirs <;>
        refine ⟨?_, ?_, ?_, ?_, ?_⟩ <;>
        simp [storagepools_create, get_pool_xml, hISO, hNotKiso, h1, hdup, hfs]
    · by_cases hfs : ("/var/lib/kimchi/logical_mount/" ++ pp.name) ∈ w.fsDirs <;>
        refine ⟨?_, ?_, ?_, ?_, ?_⟩ <;>
        simp [storagepools_create, get_pool_xml, hISO, hNotKiso, h1, hdup, hfs]
  · intro hISO hKiso hdup
    refine ⟨?_, ?_, ?_⟩ <;>
      simp [storagepools_create, do_deep_scan, add_task, get_pool_xml, hISO,
        hKiso, hdup]

/-- Witness for C3: duplicate creates against the concrete world holding
network net1, template tmpl1 and pool deep. -/
theorem C3_duplicate_create_amended_witness :
    networks_create c3nenv c3netParams c3world =
      (.error (.invalidOperation "Network net1 already exists"), c3world) ∧
    templates_create c3tenv "tmpl1" c3world =
      (.error (.invalidOperation "Template already exists"), c3world) ∧
    (storagepools_create c3penv c3dirParams c3world).1 =
      .error (.invalidOperation "The name deep has been used by a pool") ∧
    (storagepools_create c3penv c3dirParams c3world).2.store =
      c3world.store ∧
    (storagepools_create c3penv c3isoParams c3world).2.startedTasks =
      c3world.startedTasks ++ [c3world.nextTaskId] := by
  have h := C3_duplicate_create_amended c3world c3nenv c3netParams c3tenv
    "tmpl1" c3penv c3dirParams
  have h2 := C3_duplicate_create_amended c3world c3nenv c3netParams c3tenv
    "tmpl1" c3penv c3isoParams
  refine ⟨?_, ?_, ?_, ?_, ?_⟩
  · exact h.1 (by decide)
  · exact h.2.1 (by decide)
  · exact (h.2.2.1 (by decide) (by decide) (Or.inl rfl) (by decide)).1
  · exact (h.2.2.1 (by decide) (by decide) (Or.inl rfl) (by decide)).2.2.1
  · exact (h2.2.2.2 (by decide) rfl (by decide)).2.2

end Kimchi
